import Mathlib

/-
Shallow embedding of `src/server/resolvers/post.resolver.ts` from the
fullstack-crud-blog repository.

Modelling choices:

* The backing store (the database reachable through the MikroORM
  `EntityManager`) is a `Store`: one list per entity collection, in the
  store's default order.  `repo.findOne` / `findOneOrFail` become
  `List.find?` over the collection; a failed `findOneOrFail` is the
  `none` case and is translated to the typed error the resolver throws
  in the corresponding `catch` block.
* Entity rows carry their columns; relations (`writer`, `type`) are
  stored as foreign-key identifiers, exactly as the rows are persisted.
  The ORM materialises a relation as an entity instance through the
  request's identity map, which holds at most one instance per row per
  request.  Reference equality of two materialised entities of one
  request (`a !== b` in the resolver) is therefore modelled as
  structural inequality of the records obtained by looking the two
  identifiers up in the same store: one row yields one instance, and
  rows with different identifiers yield structurally different records
  because the identifier is a field of the record.
* `flush()` calls can fail at the store; each operation takes one
  boolean per flush site telling whether that flush succeeds.  A failed
  flush leaves the store unchanged and the operation raises whatever
  the resolver's `catch` (or absence of one) dictates.
* Every operation returns the outcome (`Except Err α`, `.error` being a
  thrown exception) together with the store after the operation.
-/

/-- Modelled from the spec: the `User` entity (its class is not under
`src/`): a unique identifier plus the remaining columns, which the
resolver never reads; they are collapsed into one opaque `data` field. -/
structure User where
  id : String
  data : String
deriving DecidableEq, Repr

/-- Modelled from the spec: the `Type` (category) entity, not under
`src/`.  Named `TypeEntity` because `Type` is reserved in Lean. -/
structure TypeEntity where
  id : String
deriving DecidableEq, Repr

/-- Modelled from the spec: the `Draft` entity, not under `src/`:
identifier, title, slug, body, and foreign keys to its `Type` and its
writing `User`. -/
structure Draft where
  id : String
  title : String
  slug : String
  body : Option String
  type : String
  writer : String
deriving DecidableEq, Repr

/-- Modelled from the spec: the `Post` entity, not under `src/`:
identifier, title (1-255 chars), slug (1-20 chars), optional body, and
foreign keys to its `Type` and its writing `User`. -/
structure Post where
  id : String
  title : String
  slug : String
  body : Option String
  type : String
  writer : String
deriving DecidableEq, Repr

/-- The backing store: one collection per entity, in default order. -/
structure Store where
  users : List User
  types : List TypeEntity
  drafts : List Draft
  posts : List Post
deriving DecidableEq, Repr

/-- The typed errors thrown by the resolver (`apollo-server-errors`),
plus `store` for a raw store error escaping an unwrapped `flush()`. -/
inductive Err where
  | authentication
  | userInput
  | forbidden (msg : String)
  | store
deriving DecidableEq, Repr

/-- `PostMutationInput` from the resolver: title, slug, nullable body,
and a `type` field (declared but never read by `updatePost`). -/
structure PostMutationInput where
  title : String
  slug : String
  body : Option String
  type : String
deriving DecidableEq, Repr

/-- `PostQueryInput` from the resolver: optional id, slug, title. -/
structure PostQueryInput where
  id : Option String
  slug : Option String
  title : Option String
deriving DecidableEq, Repr

/-- `PostsQueryInput` from the resolver: optional type id, writer id. -/
structure PostsQueryInput where
  type : Option String
  writer : Option String
deriving DecidableEq, Repr

/-- `@Arg('limit', { defaultValue: 10 })` in the `Posts` query. -/
def limitDefault : Nat := 10

/-- `@Arg('offset', { defaultValue: 0 })` in the `Posts` query. -/
def offsetDefault : Nat := 0

/-- JavaScript truthiness of an optional string argument, as used by
`if(input.type)` / `if(input.writer)`: present and non-empty. -/
def truthy : Option String → Bool
  | none => false
  | some s => !s.isEmpty

/-- `em.remove(x)` on a unit of work: removes the (unique) instance the
predicate found, i.e. the first matching element of the collection. -/
def removeFirst {α : Type} (p : α → Bool) : List α → List α
  | [] => []
  | x :: rest => if p x then rest else x :: removeFirst p rest

/-- In-place mutation of the instance `find?` returned, as seen by the
store after `flush()`: the first matching element is replaced. -/
def updateFirst {α : Type} (p : α → Bool) (f : α → α) : List α → List α
  | [] => []
  | x :: rest => if p x then f x :: rest else x :: updateFirst p f rest

/-- Modelled from the spec: the `Post` constructor `new Post(draft)`
(the entity class is not under `src/`) copies the Draft's title, body,
type and writer; the slug is not copied from the Draft but assigned by
the caller (`post.slug = slug` in `createPost`), so the constructor
leaves it empty; the identifier is generated at persistence time and is
passed in as `newId`. -/
def Post.ofDraft (d : Draft) (newId : String) : Post :=
  { id := newId, title := d.title, slug := "", body := d.body,
    type := d.type, writer := d.writer }

/-- `repo.findOne({ ...input })`: first Post matching every supplied
criterion of a `PostQueryInput`. -/
def matchesQuery (q : PostQueryInput) (p : Post) : Bool :=
  (match q.id with | none => true | some v => p.id == v) &&
  (match q.slug with | none => true | some v => p.slug == v) &&
  (match q.title with | none => true | some v => p.title == v)

/-- The `post` query: `repo.findOne({ ...input }, { populate })`,
returning the first match or `null`.  No authentication. -/
def post (input : PostQueryInput) (s : Store) : Option Post :=
  s.posts.find? (matchesQuery input)

/-- One conjunct of the filter object built by the `Posts` query:
`filter.type = type` matches posts referencing the resolved entity. -/
def matchType : Option TypeEntity → Post → Bool
  | none, _ => true
  | some ty, p => p.type == ty.id

/-- The writer conjunct of the `Posts` filter object. -/
def matchWriter : Option User → Post → Bool
  | none, _ => true
  | some u, p => p.writer == u.id

/-- The `Posts` query: resolves the optional type and writer filters
(`findOneOrFail`, failure rethrown as `UserInputError`), then
`repo.find({ ...filter }, { populate, limit, offset })`: the matching
posts in store order, offset then limit applied. -/
def Posts (input : PostsQueryInput) (limit offset : Nat) (s : Store) :
    Except Err (List Post) := do
  let ftype ← match input.type with
    | some t =>
        if t.isEmpty then pure none else
          match s.types.find? (fun ty => ty.id == t) with
          | none => Except.error Err.userInput
          | some ty => pure (some ty)
    | none => pure none
  let fwriter ← match input.writer with
    | some w =>
        if w.isEmpty then pure none else
          match s.users.find? (fun u => u.id == w) with
          | none => Except.error Err.userInput
          | some u => pure (some u)
    | none => pure none
  pure (((s.posts.filter (fun p => matchType ftype p && matchWriter fwriter p)).drop
    offset).take limit)

/-- The `createPost` mutation.  Resolves the acting user from the
request context (failure: `AuthenticationError`), the draft by id
(failure: `UserInputError`), checks `draft.writer !== user` (reference
comparison under the identity map, see the header comment), builds the
Post from the Draft with the supplied slug, persists it (flush failure:
`UserInputError`, nothing applied), then removes the Draft (flush
failure: `UserInputError`, with the Post already persisted). -/
def createPost (draft_id slug : String) (ctxUser : String) (newId : String)
    (persistOk removeOk : Bool) (s : Store) : Except Err Post × Store :=
  match s.users.find? (fun u => u.id == ctxUser) with
  | none => (Except.error Err.authentication, s)
  | some user =>
    match s.drafts.find? (fun d => d.id == draft_id) with
    | none => (Except.error Err.userInput, s)
    | some draft =>
      if s.users.find? (fun u => u.id == draft.writer) ≠ some user then
        (Except.error (Err.forbidden "User is not the writer of this draft"), s)
      else
        let p := { Post.ofDraft draft newId with slug := slug }
        if persistOk then
          let s1 := { s with posts := s.posts ++ [p] }
          if removeOk then
            (Except.ok p,
             { s1 with drafts := removeFirst (fun d => d.id == draft.id) s1.drafts })
          else (Except.error Err.userInput, s1)
        else (Except.error Err.userInput, s)

/-- The `deletePost` mutation.  Resolves the acting user
(`AuthenticationError` on failure) and the post by id
(`UserInputError` on failure), checks `user !== post.writer`
(`ForbiddenError`), then `repo.remove(post).flush()` — this flush is
NOT wrapped in a try/catch, so its failure escapes as a raw store
error.  Returns `true` on success. -/
def deletePost (id : String) (ctxUser : String) (removeOk : Bool) (s : Store) :
    Except Err Bool × Store :=
  match s.users.find? (fun u => u.id == ctxUser) with
  | none => (Except.error Err.authentication, s)
  | some user =>
    match s.posts.find? (fun p => p.id == id) with
    | none => (Except.error Err.userInput, s)
    | some p =>
      if s.users.find? (fun u => u.id == p.writer) ≠ some user then
        (Except.error (Err.forbidden "User is not the writer of this post"), s)
      else if removeOk then
        (Except.ok true, { s with posts := removeFirst (fun q => q.id == id) s.posts })
      else (Except.error Err.store, s)

/-- The `updatePost` mutation.  Resolves the acting user
(`AuthenticationError`) and the post by id (`UserInputError`), checks
`user !== post.writer` (`ForbiddenError`), overwrites title, slug and
body from the input, then `em.flush()` (failure: `UserInputError`,
store unchanged).  Returns the updated post. -/
def updatePost (id : String) (input : PostMutationInput) (ctxUser : String)
    (flushOk : Bool) (s : Store) : Except Err Post × Store :=
  match s.users.find? (fun u => u.id == ctxUser) with
  | none => (Except.error Err.authentication, s)
  | some user =>
    match s.posts.find? (fun p => p.id == id) with
    | none => (Except.error Err.userInput, s)
    | some p =>
      if s.users.find? (fun u => u.id == p.writer) ≠ some user then
        (Except.error (Err.forbidden "User is not the writer of the post"), s)
      else
        let upd : Post → Post := fun q =>
          { q with title := input.title, slug := input.slug, body := input.body }
        if flushOk then
          (Except.ok (upd p),
           { s with posts := updateFirst (fun q => q.id == id) upd s.posts })
        else (Except.error Err.userInput, s)

/-! ## Helper lemmas -/

theorem find?_key_of_eq_some {α : Type} (f : α → String) (k : String) (l : List α)
    (a : α) (h : l.find? (fun x => f x == k) = some a) : f a = k := by
  have hp := List.find?_some h
  simpa using hp

theorem find?_removeFirst_key {α : Type} (f : α → String) (k : String) (l : List α)
    (hnd : (l.map f).Nodup) :
    (removeFirst (fun x => f x == k) l).find? (fun x => f x == k) = none := by
  induction l with
  | nil => simp [removeFirst]
  | cons x rest ih =>
    simp only [List.map_cons, List.nodup_cons] at hnd
    by_cases hx : (f x == k) = true
    · simp only [removeFirst, if_pos hx]
      rw [List.find?_eq_none]
      intro y hy hyk
      have hfx : f x = k := by simpa using hx
      have hfy : f y = k := by simpa using hyk
      exact hnd.1 (by rw [hfx, ← hfy]; exact List.mem_map_of_mem f hy)
    · simp only [removeFirst, if_neg hx]
      rw [List.find?_cons_of_neg (p := fun y => f y == k) _ hx]
      exact ih hnd.2

theorem updateFirst_of_find? {α : Type} (p : α → Bool) (f : α → α) (l : List α)
    (a : α) (h : l.find? p = some a) :
    ∃ l1 l2, l = l1 ++ a :: l2 ∧ (∀ x ∈ l1, p x = false) ∧
      updateFirst p f l = l1 ++ f a :: l2 := by
  induction l with
  | nil => simp at h
  | cons x rest ih =>
    by_cases hx : p x = true
    · rw [List.find?_cons_of_pos _ hx] at h
      obtain rfl : x = a := by simpa using h
      exact ⟨[], rest, by simp, by simp, by simp [updateFirst, hx]⟩
    · rw [List.find?_cons_of_neg _ hx] at h
      obtain ⟨l1, l2, hl, hl1, hu⟩ := ih h
      exact ⟨x :: l1, l2, by simp [hl], by
        intro y hy
        rcases List.mem_cons.mp hy with rfl | hy'
        · simpa using hx
        · exact hl1 y hy', by simp [updateFirst, hx, hu]⟩

theorem matchesQuery_id (v : String) (p : Post) :
    matchesQuery { id := some v, slug := none, title := none } p = (p.id == v) := by
  simp [matchesQuery]

/-! ## Sample data for witnesses -/

def sampleU1 : User := { id := "u1", data := "alice" }

def sampleU2 : User := { id := "u2", data := "bob" }

def sampleTy : TypeEntity := { id := "t1" }

def sampleDraft : Draft :=
  { id := "d1", title := "Hello", slug := "draft-slug", body := some "content",
    type := "t1", writer := "u1" }

def samplePost : Post :=
  { id := "p1", title := "Title", slug := "slug-p1", body := none,
    type := "t1", writer := "u1" }

def sampleStore : Store :=
  { users := [sampleU1, sampleU2], types := [sampleTy],
    drafts := [sampleDraft], posts := [samplePost] }

def pagedPost (i : Nat) : Post :=
  { id := "p" ++ toString i, title := "T", slug := "s", body := none,
    type := "t1", writer := "u1" }

def pagedStore : Store :=
  { users := [sampleU1], types := [sampleTy], drafts := [],
    posts := (List.range 25).map pagedPost }

deriving instance DecidableEq for Except

theorem find?_user_ne_of_id_ne {l : List User} {user : User} {k : String}
    (h : user.id ≠ k) : l.find? (fun u => u.id == k) ≠ some user := by
  intro hc
  exact h (find?_key_of_eq_some User.id k l user hc)

theorem find?_user_eq_of_id_eq {l : List User} {ctxUser k : String} {user : User}
    (h : l.find? (fun u => u.id == ctxUser) = some user) (hk : k = user.id) :
    l.find? (fun u => u.id == k) = some user := by
  subst hk
  rw [find?_key_of_eq_some User.id ctxUser l user h]
  exact h

/-! ## Claims -/

/-- Claim C9: for every mutation (`createPost`, `updatePost`,
`deletePost`), if the acting user identifier from the request context
does not resolve to an existing User, the operation fails with
`AuthenticationError` before any entity lookup, authorization check or
store modification: the outcome is the authentication error and the
store is returned unchanged, for every value of the remaining
arguments and flush outcomes. -/
theorem mutations_fail_authentication_first :
    ∀ (s : Store) (ctxUser : String),
      s.users.find? (fun u => u.id == ctxUser) = none →
      (∀ draft_id slug newId pOk rOk,
        createPost draft_id slug ctxUser newId pOk rOk s =
          (Except.error Err.authentication, s))
      ∧ (∀ id input fOk,
        updatePost id input ctxUser fOk s = (Except.error Err.authentication, s))
      ∧ (∀ id rOk,
        deletePost id ctxUser rOk s = (Except.error Err.authentication, s)) := by
  intro s ctxUser h
  refine ⟨?_, ?_, ?_⟩ <;> intros <;>
    simp [createPost, updatePost, deletePost, h]

theorem mutations_fail_authentication_first_witness :
    sampleStore.users.find? (fun u => u.id == "u3") = none ∧
    createPost "d1" "x" "u3" "p9" true true sampleStore =
      (Except.error Err.authentication, sampleStore) :=
  ⟨by decide,
   (mutations_fail_authentication_first sampleStore "u3" (by decide)).1
     "d1" "x" "p9" true true⟩

/-- Claim C5: every lookup of a referenced entity by identifier that
fails is converted to a `UserInputError` at the point of lookup:
`Posts` with a type or writer identifier that does not resolve fails
with `UserInputError` (so it does not return an empty list),
`createPost` with a non-existent draft id fails with `UserInputError`,
and `updatePost` / `deletePost` with a non-existent post id fail with
`UserInputError`. -/
theorem lookups_fail_as_user_input :
    (∀ (s : Store) (t : String) (w : Option String) (limit offset : Nat),
       t.isEmpty = false →
       s.types.find? (fun ty => ty.id == t) = none →
       Posts { type := some t, writer := w } limit offset s =
         Except.error Err.userInput)
  ∧ (∀ (s : Store) (w : String) (limit offset : Nat),
       w.isEmpty = false →
       s.users.find? (fun u => u.id == w) = none →
       Posts { type := none, writer := some w } limit offset s =
         Except.error Err.userInput)
  ∧ (∀ (s : Store) (ctxUser : String) (user : User)
       (draft_id slug newId : String) (pOk rOk : Bool),
       s.users.find? (fun u => u.id == ctxUser) = some user →
       s.drafts.find? (fun d => d.id == draft_id) = none →
       createPost draft_id slug ctxUser newId pOk rOk s =
         (Except.error Err.userInput, s))
  ∧ (∀ (s : Store) (ctxUser : String) (user : User) (id : String)
       (input : PostMutationInput) (fOk : Bool),
       s.users.find? (fun u => u.id == ctxUser) = some user →
       s.posts.find? (fun q => q.id == id) = none →
       updatePost id input ctxUser fOk s = (Except.error Err.userInput, s))
  ∧ (∀ (s : Store) (ctxUser : String) (user : User) (id : String) (rOk : Bool),
       s.users.find? (fun u => u.id == ctxUser) = some user →
       s.posts.find? (fun q => q.id == id) = none →
       deletePost id ctxUser rOk s = (Except.error Err.userInput, s)) := by
  refine ⟨?_, ?_, ?_, ?_, ?_⟩
  · intro s t w limit offset ht hty
    simp only [Posts, ht, hty, Bool.false_eq_true, if_false]
    rfl
  · intro s w limit offset hw hu
    simp only [Posts, hw, hu, Bool.false_eq_true, if_false]
    rfl
  · intro s ctxUser user draft_id slug newId pOk rOk hu hd
    simp [createPost, hu, hd]
  · intro s ctxUser user id input fOk hu hp
    simp [updatePost, hu, hp]
  · intro s ctxUser user id rOk hu hp
    simp [deletePost, hu, hp]

theorem lookups_fail_as_user_input_witness :
    ("tX".isEmpty = false ∧
      sampleStore.types.find? (fun ty => ty.id == "tX") = none) ∧
    Posts { type := some "tX", writer := none } 10 0 sampleStore =
      Except.error Err.userInput :=
  ⟨⟨by decide, by decide⟩,
   lookups_fail_as_user_input.1 sampleStore "tX" none 10 0 (by decide) (by decide)⟩

/-- Claim C4: a mutation attempted by an authenticated user whose
identifier differs from the target entity's writer fails with the
resolver's `ForbiddenError` and returns the store unchanged:
`createPost` leaves the draft intact and creates no post, and
`updatePost` / `deletePost` leave the post unchanged. -/
theorem forbidden_mutations_leave_store_unchanged :
    ∀ (s : Store) (ctxUser : String) (user : User),
      s.users.find? (fun u => u.id == ctxUser) = some user →
      (∀ draft_id slug newId pOk rOk draft,
        s.drafts.find? (fun d => d.id == draft_id) = some draft →
        user.id ≠ draft.writer →
        createPost draft_id slug ctxUser newId pOk rOk s =
          (Except.error (Err.forbidden "User is not the writer of this draft"), s))
      ∧ (∀ id input fOk p,
        s.posts.find? (fun q => q.id == id) = some p →
        user.id ≠ p.writer →
        updatePost id input ctxUser fOk s =
          (Except.error (Err.forbidden "User is not the writer of the post"), s))
      ∧ (∀ id rOk p,
        s.posts.find? (fun q => q.id == id) = some p →
        user.id ≠ p.writer →
        deletePost id ctxUser rOk s =
          (Except.error (Err.forbidden "User is not the writer of this post"), s)) := by
  intro s ctxUser user hu
  refine ⟨?_, ?_, ?_⟩
  · intro draft_id slug newId pOk rOk draft hd hne
    have hchk := find?_user_ne_of_id_ne (l := s.users) hne
    simp [createPost, hu, hd, hchk]
  · intro id input fOk p hp hne
    have hchk := find?_user_ne_of_id_ne (l := s.users) hne
    simp [updatePost, hu, hp, hchk]
  · intro id rOk p hp hne
    have hchk := find?_user_ne_of_id_ne (l := s.users) hne
    simp [deletePost, hu, hp, hchk]

theorem forbidden_mutations_leave_store_unchanged_witness :
    (sampleStore.users.find? (fun u => u.id == "u2") = some sampleU2 ∧
      sampleStore.drafts.find? (fun d => d.id == "d1") = some sampleDraft ∧
      sampleU2.id ≠ sampleDraft.writer) ∧
    createPost "d1" "x" "u2" "p9" true true sampleStore =
      (Except.error (Err.forbidden "User is not the writer of this draft"),
       sampleStore) :=
  ⟨⟨by decide, by decide, by decide⟩,
   (forbidden_mutations_leave_store_unchanged sampleStore "u2" sampleU2
       (by decide)).1 "d1" "x" "p9" true true sampleDraft (by decide) (by decide)⟩

/-- Claim C2: the two persistence steps of `createPost` are sequential
and dependent.  If persisting the new Post fails, a `UserInputError`
is raised and the store — in particular the Draft — is unchanged,
whatever the outcome of the (never attempted) Draft deletion would
have been.  If deleting the Draft fails after the Post was persisted,
a `UserInputError` is surfaced and the store holds the new Post with
the Draft still present. -/
theorem createPost_two_step_failures :
    ∀ (s : Store) (ctxUser : String) (user : User)
      (draft_id slug newId : String) (draft : Draft),
      s.users.find? (fun u => u.id == ctxUser) = some user →
      s.drafts.find? (fun d => d.id == draft_id) = some draft →
      draft.writer = user.id →
      (∀ rOk, createPost draft_id slug ctxUser newId false rOk s =
        (Except.error Err.userInput, s))
      ∧ createPost draft_id slug ctxUser newId true false s =
          (Except.error Err.userInput,
           { s with posts := s.posts ++ [{ Post.ofDraft draft newId with slug := slug }] }) := by
  intro s ctxUser user draft_id slug newId draft hu hd hw
  have hchk := find?_user_eq_of_id_eq (k := draft.writer) hu hw
  constructor
  · intro rOk
    simp [createPost, hu, hd, hchk]
  · simp [createPost, hu, hd, hchk]

theorem createPost_two_step_failures_witness :
    (sampleStore.users.find? (fun u => u.id == "u1") = some sampleU1 ∧
      sampleStore.drafts.find? (fun d => d.id == "d1") = some sampleDraft ∧
      sampleDraft.writer = sampleU1.id) ∧
    createPost "d1" "new-slug" "u1" "p9" true false sampleStore =
      (Except.error Err.userInput,
       { sampleStore with posts :=
           sampleStore.posts ++ [{ Post.ofDraft sampleDraft "p9" with slug := "new-slug" }] }) :=
  ⟨⟨by decide, by decide, by decide⟩,
   (createPost_two_step_failures sampleStore "u1" sampleU1 "d1" "new-slug" "p9"
       sampleDraft (by decide) (by decide) (by decide)).2⟩

/-- Claim C3: for every Draft owned by the acting user, `createPost`
with that draft's id succeeds (both flushes succeeding) and afterwards
a Post exists whose title, body, type and writer are copied from the
Draft, whose slug is the supplied slug argument, the Draft no longer
exists, and the created Post is the returned value. -/
theorem createPost_promotes_owned_draft :
    ∀ (s : Store) (ctxUser : String) (user : User)
      (draft_id slug newId : String) (draft : Draft),
      s.users.find? (fun u => u.id == ctxUser) = some user →
      s.drafts.find? (fun d => d.id == draft_id) = some draft →
      draft.writer = user.id →
      (s.drafts.map Draft.id).Nodup →
      ∃ p : Post,
        (createPost draft_id slug ctxUser newId true true s).1 = Except.ok p ∧
        p.title = draft.title ∧ p.body = draft.body ∧ p.type = draft.type ∧
        p.writer = draft.writer ∧ p.slug = slug ∧
        p ∈ (createPost draft_id slug ctxUser newId true true s).2.posts ∧
        (createPost draft_id slug ctxUser newId true true s).2.drafts.find?
          (fun d => d.id == draft_id) = none := by
  intro s ctxUser user draft_id slug newId draft hu hd hw hnd
  have hchk := find?_user_eq_of_id_eq (k := draft.writer) hu hw
  have hid : draft.id = draft_id := find?_key_of_eq_some Draft.id draft_id s.drafts draft hd
  refine ⟨{ Post.ofDraft draft newId with slug := slug }, ?_, rfl, rfl, rfl, rfl, rfl, ?_, ?_⟩
  · simp [createPost, hu, hd, hchk]
  · simp [createPost, hu, hd, hchk]
  · have hdr : (createPost draft_id slug ctxUser newId true true s).2.drafts =
        removeFirst (fun d => d.id == draft.id) s.drafts := by
      simp [createPost, hu, hd, hchk]
    rw [hdr, hid]
    exact find?_removeFirst_key Draft.id draft_id s.drafts hnd

theorem createPost_promotes_owned_draft_witness :
    (sampleStore.users.find? (fun u => u.id == "u1") = some sampleU1 ∧
      sampleStore.drafts.find? (fun d => d.id == "d1") = some sampleDraft ∧
      sampleDraft.writer = sampleU1.id ∧
      (sampleStore.drafts.map Draft.id).Nodup) ∧
    (∃ p : Post,
      (createPost "d1" "new-slug" "u1" "p9" true true sampleStore).1 = Except.ok p ∧
      p.title = sampleDraft.title ∧ p.body = sampleDraft.body ∧
      p.type = sampleDraft.type ∧ p.writer = sampleDraft.writer ∧
      p.slug = "new-slug" ∧
      p ∈ (createPost "d1" "new-slug" "u1" "p9" true true sampleStore).2.posts ∧
      (createPost "d1" "new-slug" "u1" "p9" true true sampleStore).2.drafts.find?
        (fun d => d.id == "d1") = none) :=
  ⟨⟨by decide, by decide, by decide, by decide⟩,
   createPost_promotes_owned_draft sampleStore "u1" sampleU1 "d1" "new-slug" "p9"
     sampleDraft (by decide) (by decide) (by decide) (by decide)⟩

/-- Claim C1: for every mutation, the resolver's reference-style
ownership check (`draft.writer !== user`, `user !== post.writer`),
interpreted through the request's identity map, forbids the mutation
exactly when the acting user's identifier differs from the target
entity's writer identifier: the `ForbiddenError` outcome is
equivalent to inequality of the two identifiers. -/
theorem ownership_checks_compare_identifiers :
    ∀ (s : Store) (ctxUser : String) (user : User),
      s.users.find? (fun u => u.id == ctxUser) = some user →
      (∀ draft_id slug newId pOk rOk draft,
        s.drafts.find? (fun d => d.id == draft_id) = some draft →
        ((createPost draft_id slug ctxUser newId pOk rOk s).1 =
            Except.error (Err.forbidden "User is not the writer of this draft")
          ↔ user.id ≠ draft.writer))
      ∧ (∀ id input fOk p,
        s.posts.find? (fun q => q.id == id) = some p →
        ((updatePost id input ctxUser fOk s).1 =
            Except.error (Err.forbidden "User is not the writer of the post")
          ↔ user.id ≠ p.writer))
      ∧ (∀ id rOk p,
        s.posts.find? (fun q => q.id == id) = some p →
        ((deletePost id ctxUser rOk s).1 =
            Except.error (Err.forbidden "User is not the writer of this post")
          ↔ user.id ≠ p.writer)) := by
  intro s ctxUser user hu
  refine ⟨?_, ?_, ?_⟩
  · intro draft_id slug newId pOk rOk draft hd
    constructor
    · intro hres
      by_contra hne
      have hchk := find?_user_eq_of_id_eq (k := draft.writer) hu hne.symm
      cases pOk <;> cases rOk <;> simp [createPost, hu, hd, hchk] at hres
    · intro hne
      have hchk := find?_user_ne_of_id_ne (l := s.users) hne
      simp [createPost, hu, hd, hchk]
  · intro id input fOk p hp
    constructor
    · intro hres
      by_contra hne
      have hchk := find?_user_eq_of_id_eq (k := p.writer) hu hne.symm
      cases fOk <;> simp [updatePost, hu, hp, hchk] at hres
    · intro hne
      have hchk := find?_user_ne_of_id_ne (l := s.users) hne
      simp [updatePost, hu, hp, hchk]
  · intro id rOk p hp
    constructor
    · intro hres
      by_contra hne
      have hchk := find?_user_eq_of_id_eq (k := p.writer) hu hne.symm
      cases rOk <;> simp [deletePost, hu, hp, hchk] at hres
    · intro hne
      have hchk := find?_user_ne_of_id_ne (l := s.users) hne
      simp [deletePost, hu, hp, hchk]

theorem ownership_checks_compare_identifiers_witness :
    (sampleStore.users.find? (fun u => u.id == "u2") = some sampleU2 ∧
      sampleStore.drafts.find? (fun d => d.id == "d1") = some sampleDraft) ∧
    ((createPost "d1" "x" "u2" "p9" true true sampleStore).1 =
        Except.error (Err.forbidden "User is not the writer of this draft")
      ↔ sampleU2.id ≠ sampleDraft.writer) :=
  ⟨⟨by decide, by decide⟩,
   (ownership_checks_compare_identifiers sampleStore "u2" sampleU2 (by decide)).1
     "d1" "x" "p9" true true sampleDraft (by decide)⟩

/-- Claim C6: `Posts` with a filter naming an existing type returns
exactly the posts of that type, in store order, with the offset applied
before the limit; the declared defaults for the two paging arguments
are 10 and 0. -/
theorem listPosts_type_filter_paging :
    ∀ (s : Store) (t : String) (ty : TypeEntity) (limit offset : Nat),
      t.isEmpty = false →
      s.types.find? (fun x => x.id == t) = some ty →
      Posts { type := some t, writer := none } limit offset s =
        Except.ok (((s.posts.filter (fun p => p.type == t)).drop offset).take limit)
      ∧ limitDefault = 10 ∧ offsetDefault = 0 := by
  intro s t ty limit offset ht hty
  have htyid : ty.id = t := find?_key_of_eq_some TypeEntity.id t s.types ty hty
  refine ⟨?_, rfl, rfl⟩
  have hfun : (fun p => matchType (some ty) p && matchWriter none p) =
      (fun p : Post => p.type == t) := by
    funext p
    simp [matchType, matchWriter, htyid]
  calc Posts { type := some t, writer := none } limit offset s
      = Except.ok (((s.posts.filter
          (fun p => matchType (some ty) p && matchWriter none p)).drop offset).take limit) := by
        simp only [Posts, ht, hty, Bool.false_eq_true, if_false]
        rfl
    _ = Except.ok (((s.posts.filter (fun p : Post => p.type == t)).drop offset).take limit) := by
        rw [hfun]

theorem listPosts_type_filter_paging_witness :
    ("t1".isEmpty = false ∧
      pagedStore.types.find? (fun x => x.id == "t1") = some sampleTy) ∧
    (Posts { type := some "t1", writer := none } 10 10 pagedStore =
      Except.ok (((pagedStore.posts.filter (fun p => p.type == "t1")).drop 10).take 10)
    ∧ limitDefault = 10 ∧ offsetDefault = 0) :=
  ⟨⟨by decide, by decide⟩,
   listPosts_type_filter_paging pagedStore "t1" sampleTy 10 10 (by decide) (by decide)⟩

/-- Claim C7: a successful `updatePost` overwrites exactly the title,
slug and body of the target post from the input; its identifier, type
and writer are unchanged, every other post keeps its place and value,
and the users, drafts and types collections are untouched. -/
theorem updatePost_modifies_only_title_slug_body :
    ∀ (s : Store) (id : String) (input : PostMutationInput) (ctxUser : String)
      (fOk : Bool) (p' : Post),
      (updatePost id input ctxUser fOk s).1 = Except.ok p' →
      ∃ (l1 l2 : List Post) (p : Post),
        s.posts = l1 ++ p :: l2 ∧
        p.id = id ∧ (∀ q ∈ l1, (q.id == id) = false) ∧
        p' = { p with title := input.title, slug := input.slug, body := input.body } ∧
        (updatePost id input ctxUser fOk s).2 = { s with posts := l1 ++ p' :: l2 } := by
  intro s id input ctxUser fOk p' h
  cases hu : s.users.find? (fun u => u.id == ctxUser) with
  | none => simp [updatePost, hu] at h
  | some user =>
    cases hp : s.posts.find? (fun q => q.id == id) with
    | none => simp [updatePost, hu, hp] at h
    | some p =>
      by_cases hchk : s.users.find? (fun u => u.id == p.writer) ≠ some user
      · simp [updatePost, hu, hp, hchk] at h
      · rw [not_not] at hchk
        cases fOk with
        | false => simp [updatePost, hu, hp, hchk] at h
        | true =>
          have hres : (updatePost id input ctxUser true s).1 = Except.ok { p with title := input.title, slug := input.slug, body := input.body } := by
            simp [updatePost, hu, hp, hchk]
          have hup : p' = { p with title := input.title, slug := input.slug, body := input.body } :=
            (Except.ok.inj (hres.symm.trans h)).symm
          obtain ⟨l1, l2, hl, hl1, hupd⟩ :=
            updateFirst_of_find? (fun q => q.id == id)
              (fun q => { q with title := input.title, slug := input.slug, body := input.body }) s.posts p hp
          refine ⟨l1, l2, p, hl, find?_key_of_eq_some Post.id id s.posts p hp,
            fun q hq => hl1 q hq, hup, ?_⟩
          have hst : (updatePost id input ctxUser true s).2 = { s with posts := updateFirst (fun q => q.id == id) (fun q => { q with title := input.title, slug := input.slug, body := input.body }) s.posts } := by
            simp [updatePost, hu, hp, hchk]
          rw [hst, hupd, hup]

theorem updatePost_modifies_only_title_slug_body_witness :
    ((updatePost "p1" { title := "N", slug := "n", body := some "B", type := "zz" }
        "u1" true sampleStore).1 =
      Except.ok { id := "p1", title := "N", slug := "n", body := some "B",
                  type := "t1", writer := "u1" }) ∧
    (∃ (l1 l2 : List Post) (p : Post),
      sampleStore.posts = l1 ++ p :: l2 ∧
      p.id = "p1" ∧ (∀ q ∈ l1, (q.id == "p1") = false) ∧
      ({ id := "p1", title := "N", slug := "n", body := some "B",
         type := "t1", writer := "u1" } : Post) =
        { p with title := "N", slug := "n", body := some "B" } ∧
      (updatePost "p1" { title := "N", slug := "n", body := some "B", type := "zz" }
          "u1" true sampleStore).2 =
        { sampleStore with posts := l1 ++
            ({ id := "p1", title := "N", slug := "n", body := some "B",
               type := "t1", writer := "u1" } : Post) :: l2 }) :=
  ⟨by decide,
   updatePost_modifies_only_title_slug_body sampleStore "p1"
     { title := "N", slug := "n", body := some "B", type := "zz" } "u1" true
     { id := "p1", title := "N", slug := "n", body := some "B",
       type := "t1", writer := "u1" } (by decide)⟩

/-- Claim C8: `deletePost` called by the authenticated writer of an
existing post removes that post from the store and returns `true`, and
a subsequent `post` query by that id returns `null`; moreover
`deletePost` never returns `false` — every failing path (unknown acting
user, post not found, acting user not the writer, store failure at the
unwrapped flush) is an error outcome. -/
theorem deletePost_removes_post_and_never_false :
    (∀ (s : Store) (ctxUser : String) (user : User) (id : String) (p : Post),
       s.users.find? (fun u => u.id == ctxUser) = some user →
       s.posts.find? (fun q => q.id == id) = some p →
       p.writer = user.id →
       (s.posts.map Post.id).Nodup →
       deletePost id ctxUser true s =
         (Except.ok true, { s with posts := removeFirst (fun q => q.id == id) s.posts })
       ∧ post { id := some id, slug := none, title := none }
           (deletePost id ctxUser true s).2 = none)
  ∧ (∀ (s : Store) (ctxUser id : String) (rOk : Bool),
       (deletePost id ctxUser rOk s).1 ≠ Except.ok false) := by
  constructor
  · intro s ctxUser user id p hu hp hw hnd
    have hchk := find?_user_eq_of_id_eq (k := p.writer) hu hw
    have hres : deletePost id ctxUser true s =
        (Except.ok true,
         { s with posts := removeFirst (fun q => q.id == id) s.posts }) := by
      simp [deletePost, hu, hp, hchk]
    refine ⟨hres, ?_⟩
    rw [hres]
    have hfun : matchesQuery { id := some id, slug := none, title := none } =
        fun q : Post => q.id == id := funext (matchesQuery_id id)
    simp only [post]
    rw [hfun]
    exact find?_removeFirst_key Post.id id s.posts hnd
  · intro s ctxUser id rOk
    cases hu : s.users.find? (fun u => u.id == ctxUser) with
    | none => simp [deletePost, hu]
    | some user =>
      cases hp : s.posts.find? (fun q => q.id == id) with
      | none => simp [deletePost, hu, hp]
      | some p =>
        by_cases hchk : s.users.find? (fun u => u.id == p.writer) ≠ some user
        · simp [deletePost, hu, hp, hchk]
        · rw [not_not] at hchk
          cases rOk <;> simp [deletePost, hu, hp, hchk]

theorem deletePost_removes_post_and_never_false_witness :
    (sampleStore.users.find? (fun u => u.id == "u1") = some sampleU1 ∧
      sampleStore.posts.find? (fun q => q.id == "p1") = some samplePost ∧
      samplePost.writer = sampleU1.id ∧
      (sampleStore.posts.map Post.id).Nodup) ∧
    (deletePost "p1" "u1" true sampleStore =
      (Except.ok true,
       { sampleStore with posts := removeFirst (fun q => q.id == "p1") sampleStore.posts })
    ∧ post { id := some "p1", slug := none, title := none }
        (deletePost "p1" "u1" true sampleStore).2 = none) :=
  ⟨⟨by decide, by decide, by decide, by decide⟩,
   deletePost_removes_post_and_never_false.1 sampleStore "u1" sampleU1 "p1" samplePost
     (by decide) (by decide) (by decide) (by decide)⟩

/-- Claim C10: `updatePost` does not depend on the `type` field of its
input: two calls on the same store whose inputs agree on title, slug
and body (so differ at most in `type`) return the same outcome and the
same store. -/
theorem updatePost_ignores_input_type_field :
    ∀ (s : Store) (id ctxUser : String) (fOk : Bool) (i1 i2 : PostMutationInput),
      i1.title = i2.title → i1.slug = i2.slug → i1.body = i2.body →
      updatePost id i1 ctxUser fOk s = updatePost id i2 ctxUser fOk s := by
  intro s id ctxUser fOk i1 i2 h1 h2 h3
  obtain ⟨t1, sl1, b1, ty1⟩ := i1
  obtain ⟨t2, sl2, b2, ty2⟩ := i2
  have h1' : t1 = t2 := h1
  have h2' : sl1 = sl2 := h2
  have h3' : b1 = b2 := h3
  subst h1'
  subst h2'
  subst h3'
  rfl

theorem updatePost_ignores_input_type_field_witness :
    (("N" : String) = "N" ∧ ("n" : String) = "n" ∧ (some "B" : Option String) = some "B") ∧
    updatePost "p1" { title := "N", slug := "n", body := some "B", type := "zz" }
        "u1" true sampleStore =
      updatePost "p1" { title := "N", slug := "n", body := some "B", type := "ww" }
        "u1" true sampleStore :=
  ⟨⟨rfl, rfl, rfl⟩,
   updatePost_ignores_input_type_field sampleStore "p1" "u1" true
     { title := "N", slug := "n", body := some "B", type := "zz" }
     { title := "N", slug := "n", body := some "B", type := "ww" }
     rfl rfl rfl⟩
